import Mathlib

/-!
Verification of the middleware composition / request-handling pipeline, the
validation helpers, and the error-classification dispatcher of this
repository, via a shallow embedding in Lean 4.

Conventions of the embedding:
* JavaScript host primitives (`Date.now`, `new Date(string)`, `Number(string)`,
  `Math.random`, `process.env`) are explicit parameters of the Lean
  definitions: the embedded functions receive the values that the host would
  produce.
* Machine numbers of JavaScript are modelled as `Rat` (validation bounds),
  `Int` (millisecond timestamps) and `Nat` (HTTP status codes, window sizes).
* A JavaScript function that can return `undefined` is embedded with an
  `Option` result.
* Middleware steps are higher-order functions in the source.  For the
  theorems about the two combinators (`composeMiddleware`, `withMiddleware`)
  steps are modelled as instrumented records describing whether the step
  invokes its `next` callback and what it returns, exactly the shape used by
  the specification's own property tests.
-/

namespace TaleOfDdh

/-! ## Middleware: `composeMiddleware` (src/utilities/middleware/index.js 317-332)

The source keeps a mutable `index`; `next` throws
"No more middleware to execute" when `index >= middlewares.length`, otherwise
it dispatches `middlewares[index++]`.  An instrumented middleware step either
calls `next` exactly once (forwarding the result) or returns its own
response without calling `next`.  Because the shared `index` only ever
increases, the dispatcher seen from index `i` only touches the suffix
`steps.drop i`, which the embedding makes explicit so that the recursion is
structural. -/

/-- An instrumented middleware step for `composeMiddleware`: `callsNext`
records whether the step invokes its `next` callback (forwarding the result);
if it does not, it returns `response` itself.  Responses are abstracted to
`Nat` identifiers, which suffices for the ordering / short-circuit claims. -/
structure CStep where
  callsNext : Bool
  response : Nat
deriving DecidableEq, Repr

/-- The dispatcher of `composeMiddleware`, acting on the remaining middleware
suffix with `i` the current value of the shared `index` counter.  Mirrors the
source `next`: with no middleware left it throws
"No more middleware to execute"; otherwise it runs the middleware at `index`,
whose body either invokes `next` (recursing at `index + 1`) or returns its own
response.  The first component is the instrumentation trace: the indices of
the steps dispatched, in dispatch order. -/
def dispatchAux : List CStep → Nat → List Nat × Except String Nat
  | [], _ => ([], Except.error "No more middleware to execute")
  | s :: rest, i =>
      if s.callsNext then
        let r := dispatchAux rest (i + 1)
        (i :: r.1, r.2)
      else
        ([i], Except.ok s.response)

/-- The `next` callback of the composed handler at index `i` over the full
middleware list. -/
def dispatchFrom (steps : List CStep) (i : Nat) : List Nat × Except String Nat :=
  dispatchAux (steps.drop i) i

/-- `composeMiddleware(...middlewares)` returns a function that starts the
chain by calling `next(event, context)` with `index = 0`. -/
def composeMiddleware (steps : List CStep) : List Nat × Except String Nat :=
  dispatchAux steps 0

/-- Number of steps the dispatcher runs: the leading run of `callsNext`
steps plus the halting step (if any). -/
def haltLen : List CStep → Nat
  | [] => 0
  | s :: rest => if s.callsNext then haltLen rest + 1 else 1

lemma dispatchAux_trace (l : List CStep) (i : Nat) :
    (dispatchAux l i).1 = List.range' i (haltLen l) := by
  induction l generalizing i with
  | nil => simp [dispatchAux, haltLen]
  | cons s rest ih =>
      by_cases hc : s.callsNext
      · simp [dispatchAux, haltLen, hc, List.range'_succ, ih]
      · simp [dispatchAux, haltLen, hc, List.range'_one]

lemma haltLen_le_length (l : List CStep) : haltLen l ≤ l.length := by
  induction l with
  | nil => simp [haltLen]
  | cons s rest ih =>
      by_cases hc : s.callsNext
      · simp only [haltLen, hc, if_pos, List.length_cons]
        omega
      · have h0 : s.callsNext = false := by simpa using hc
        simp only [haltLen, h0, Bool.false_eq_true, if_false, List.length_cons]
        omega

lemma haltLen_of_no_call (l : List CStep) (p : Nat) (hp : p < l.length)
    (hin : p < haltLen l) (hnc : (l.get ⟨p, hp⟩).callsNext = false) :
    haltLen l = p + 1 := by
  induction l generalizing p with
  | nil => simp at hp
  | cons s rest ih =>
      cases p with
      | zero =>
          have h0 : s.callsNext = false := by simpa using hnc
          simp [haltLen, h0]
      | succ q =>
          have hs : s.callsNext = true := by
            by_contra hcon
            have h0 : s.callsNext = false := by
              simpa using hcon
            rw [haltLen, h0] at hin
            simp at hin
          have hq : q < rest.length := by simpa using hp
          have hnc' : (rest.get ⟨q, hq⟩).callsNext = false := by simpa using hnc
          have hin' : q < haltLen rest := by
            rw [haltLen, hs] at hin
            simp at hin
            omega
          rw [haltLen, hs]
          simp [ih q hq hin' hnc']

/-- C3: in `composeMiddleware`, the dispatch trace is strictly increasing
(steps run in declared order), has no duplicates (each step runs at most
once), and whenever a step that does not call `next` is dispatched, no step
after it is dispatched. -/
theorem composeMiddleware_order_once_halt (steps : List CStep) (j k : Nat)
    (hj : j ∈ (composeMiddleware steps).1) (hjl : j < steps.length)
    (hnc : (steps.get ⟨j, hjl⟩).callsNext = false)
    (hk : k ∈ (composeMiddleware steps).1) :
    (composeMiddleware steps).1.Sorted (· < ·) ∧
      (composeMiddleware steps).1.Nodup ∧ k ≤ j := by
  have htr : (composeMiddleware steps).1 = List.range' 0 (haltLen steps) :=
    dispatchAux_trace steps 0
  refine ⟨?_, ?_, ?_⟩
  · rw [htr]
    exact List.pairwise_lt_range' 0 (haltLen steps)
  · rw [htr]
    exact (List.pairwise_lt_range' 0 (haltLen steps)).nodup
  · rw [htr] at hj hk
    have hj' : j < haltLen steps := by
      have := List.mem_range'_1.mp hj
      omega
    have hk' : k < haltLen steps := by
      have := List.mem_range'_1.mp hk
      omega
    have := haltLen_of_no_call steps j hjl hj' hnc
    omega

/-- Witness for C3 on the concrete 3-step pipeline
`[callsNext, not-callsNext, callsNext]`: the trace is `[0, 1]`, sorted,
duplicate-free, and step 0 runs no later than the halting step 1. -/
theorem composeMiddleware_order_once_halt_witness :
    (composeMiddleware [⟨true, 10⟩, ⟨false, 11⟩, ⟨true, 12⟩]).1.Sorted (· < ·) ∧
      (composeMiddleware [⟨true, 10⟩, ⟨false, 11⟩, ⟨true, 12⟩]).1.Nodup ∧ 0 ≤ 1 :=
  composeMiddleware_order_once_halt [⟨true, 10⟩, ⟨false, 11⟩, ⟨true, 12⟩] 1 0
    (by decide) (by decide) (by decide) (by decide)

/-- C4: invoking the `next` callback when the index has reached or passed the
end of the middleware list throws "No more middleware to execute" and never
yields a normal result. -/
theorem dispatchFrom_past_end_throws (steps : List CStep) (i : Nat)
    (h : steps.length ≤ i) :
    dispatchFrom steps i = ([], Except.error "No more middleware to execute") := by
  unfold dispatchFrom
  rw [List.drop_eq_nil_of_le h]
  rfl

/-- Witness for C4: dispatching at index 3 of a 3-step pipeline throws. -/
theorem dispatchFrom_past_end_throws_witness :
    dispatchFrom [⟨true, 10⟩, ⟨true, 11⟩, ⟨true, 12⟩] 3 =
      ([], Except.error "No more middleware to execute") :=
  dispatchFrom_past_end_throws [⟨true, 10⟩, ⟨true, 11⟩, ⟨true, 12⟩] 3 (by decide)

/-! ## Middleware: `withMiddleware` (src/utilities/middleware/index.js 340-362)

The source loops over the middlewares; each one is invoked with a `next`
callback that only records the event/context to pass forward and returns
`null`.  After each middleware returns, the loop checks
`if (result && result.statusCode) return result;`, and after the loop the
handler runs on the accumulated event/context.  Note the loop advances to the
next middleware regardless of whether the step called `next`. -/

/-- Response shape checked by `withMiddleware`: only `statusCode` matters for
the short-circuit test (`result && result.statusCode`). -/
structure WResp where
  statusCode : Nat
deriving DecidableEq, Repr

/-- An instrumented middleware step for `withMiddleware`: `callsNext` records
whether the step invokes the `next` callback (which stores
`transformEvent event` / `transformCtx context` as the values passed
forward and returns `null`); `ret` is the step's own return value, `none`
standing for `null`/`undefined`. -/
structure WStep (E C : Type) where
  callsNext : Bool
  transformEvent : E → E
  transformCtx : C → C
  ret : Option WResp

/-- Default step used with `List.getD` (never dispatched). -/
def wdefault (E C : Type) : WStep E C :=
  ⟨false, id, id, none⟩

/-- Whether a step's return value makes `withMiddleware` short-circuit:
`result && result.statusCode` — a non-null return whose `statusCode` is
truthy (non-zero). -/
def scB {E C : Type} (s : WStep E C) : Bool :=
  match s.ret with
  | some r => r.statusCode != 0
  | none => false

/-- The loop body of `withMiddleware`, carrying the current event and
context.  Returns the final response, the instrumentation trace (indices of
the steps that ran) and whether the terminal handler ran. -/
def wLoop {E C : Type} (handler : E → C → WResp) :
    List (WStep E C) → Nat → E → C → WResp × List Nat × Bool
  | [], _, e, c => (handler e c, [], true)
  | s :: rest, i, e, c =>
      let e' := if s.callsNext then s.transformEvent e else e
      let c' := if s.callsNext then s.transformCtx c else c
      match s.ret with
      | some r =>
          if r.statusCode != 0 then (r, [i], false)
          else
            let t := wLoop handler rest (i + 1) e' c'
            (t.1, i :: t.2.1, t.2.2)
      | none =>
          let t := wLoop handler rest (i + 1) e' c'
          (t.1, i :: t.2.1, t.2.2)

/-- `withMiddleware(handler, ...middlewares)`: run every step in order,
short-circuiting on the first step whose return value has a truthy
`statusCode`, then run the handler. -/
def withMiddleware {E C : Type} (handler : E → C → WResp)
    (steps : List (WStep E C)) (e : E) (c : C) : WResp × List Nat × Bool :=
  wLoop handler steps 0 e c

lemma wLoop_trace_range {E C : Type} (handler : E → C → WResp)
    (steps : List (WStep E C)) (i : Nat) (e : E) (c : C) :
    ∃ m, (wLoop handler steps i e c).2.1 = List.range' i m := by
  induction steps generalizing i e c with
  | nil => exact ⟨0, rfl⟩
  | cons s rest ih =>
      rcases hr : s.ret with _ | r
      · obtain ⟨m, hm⟩ := ih (i + 1) (if s.callsNext then s.transformEvent e else e)
          (if s.callsNext then s.transformCtx c else c)
        refine ⟨m + 1, ?_⟩
        simp [wLoop, hr, hm, List.range'_succ]
      · by_cases hz : r.statusCode ≠ 0
        · refine ⟨1, ?_⟩
          simp [wLoop, hr, hz, List.range'_one]
        · obtain ⟨m, hm⟩ := ih (i + 1) (if s.callsNext then s.transformEvent e else e)
            (if s.callsNext then s.transformCtx c else c)
          refine ⟨m + 1, ?_⟩
          simp only [ne_eq, not_not] at hz
          simp [wLoop, hr, hz, hm, List.range'_succ]

lemma wLoop_no_sc {E C : Type} (handler : E → C → WResp)
    (steps : List (WStep E C)) (i : Nat) (e : E) (c : C)
    (h : ∀ s ∈ steps, scB s = false) :
    (wLoop handler steps i e c).2.2 = true ∧
      (wLoop handler steps i e c).2.1 = List.range' i steps.length := by
  induction steps generalizing i e c with
  | nil => simp [wLoop]
  | cons s rest ih =>
      have hs : scB s = false := h s (List.mem_cons_self s rest)
      have hrest : ∀ x ∈ rest, scB x = false := fun x hx => h x (List.mem_cons_of_mem s hx)
      obtain ⟨ht, htr⟩ := ih (i + 1) (if s.callsNext then s.transformEvent e else e)
        (if s.callsNext then s.transformCtx c else c) hrest
      rcases hr : s.ret with _ | r
      · constructor
        · simp [wLoop, hr, ht]
        · simp [wLoop, hr, htr, List.range'_succ]
      · have hz : r.statusCode = 0 := by
          unfold scB at hs
          rw [hr] at hs
          simpa using hs
        constructor
        · simp [wLoop, hr, hz, ht]
        · simp [wLoop, hr, hz, htr, List.range'_succ]

lemma wLoop_sc_first {E C : Type} (handler : E → C → WResp)
    (steps : List (WStep E C)) (i : Nat) (e : E) (c : C) (j : Nat) (r : WResp)
    (hjl : j < steps.length)
    (hret : (steps.getD j (wdefault E C)).ret = some r)
    (hz : r.statusCode ≠ 0)
    (hbefore : ∀ k, k < j → scB (steps.getD k (wdefault E C)) = false) :
    (wLoop handler steps i e c).1 = r ∧
      (wLoop handler steps i e c).2.2 = false ∧
      (wLoop handler steps i e c).2.1 = List.range' i (j + 1) := by
  induction steps generalizing i e c j with
  | nil => simp at hjl
  | cons s rest ih =>
      cases j with
      | zero =>
          have hs : s.ret = some r := by simpa using hret
          refine ⟨?_, ?_, ?_⟩ <;> simp [wLoop, hs, hz, List.range'_one]
      | succ q =>
          have hs : scB s = false := by
            have := hbefore 0 (Nat.succ_pos q)
            simpa using this
          have hq : q < rest.length := by simpa using hjl
          have hretq : (rest.getD q (wdefault E C)).ret = some r := by simpa using hret
          have hbq : ∀ k, k < q → scB (rest.getD k (wdefault E C)) = false := by
            intro k hk
            have := hbefore (k + 1) (by omega)
            simpa using this
          obtain ⟨h1, h2, h3⟩ := ih (i + 1) (if s.callsNext then s.transformEvent e else e)
            (if s.callsNext then s.transformCtx c else c) q hq hretq hbq
          rcases hr : s.ret with _ | r0
          · refine ⟨?_, ?_, ?_⟩
            · simp [wLoop, hr, h1]
            · simp [wLoop, hr, h2]
            · simp [wLoop, hr, h3, List.range'_succ]
          · have hz0 : r0.statusCode = 0 := by
              unfold scB at hs
              rw [hr] at hs
              simpa using hs
            refine ⟨?_, ?_, ?_⟩
            · simp [wLoop, hr, hz0, h1]
            · simp [wLoop, hr, hz0, h2]
            · simp [wLoop, hr, hz0, h3, List.range'_succ]

/-- C1 (amended): the entry point produced by `withMiddleware` runs the steps
in supplied order and then the handler; it short-circuits with the step's
return value on the first step whose return value carries a truthy
`statusCode`.  Whether a step calls `next` only determines which
event/context are passed forward: a step that does not call `next` and does
not return such a response does not halt the chain, so the guarantee below is
stated purely in terms of the returned responses. -/
theorem withMiddleware_run {E C : Type} (handler : E → C → WResp)
    (steps : List (WStep E C)) (e : E) (c : C) (j : Nat) (r : WResp)
    (hjl : j < steps.length)
    (hret : (steps.getD j (wdefault E C)).ret = some r)
    (hz : r.statusCode ≠ 0)
    (hbefore : ∀ k, k < j → scB (steps.getD k (wdefault E C)) = false) :
    (withMiddleware handler steps e c).2.1.Sorted (· < ·) ∧
      (withMiddleware handler steps e c).1 = r ∧
      (withMiddleware handler steps e c).2.2 = false ∧
      (withMiddleware handler steps e c).2.1 = List.range' 0 (j + 1) := by
  obtain ⟨m, hm⟩ := wLoop_trace_range handler steps 0 e c
  obtain ⟨h1, h2, h3⟩ := wLoop_sc_first handler steps 0 e c j r hjl hret hz hbefore
  exact ⟨by rw [show (withMiddleware handler steps e c).2.1 = List.range' 0 m from hm];
            exact List.pairwise_lt_range' 0 m, h1, h2, h3⟩

/-- Witness for C1 (amended): a 2-step pipeline whose second step returns a
403 response short-circuits there — the handler does not run, the trace is
`[0, 1]`, and the final response is the 403. -/
theorem withMiddleware_run_witness :
    (withMiddleware (fun e _ => ⟨200 + e⟩)
        [⟨true, id, id, none⟩, ⟨false, id, id, some ⟨403⟩⟩] 7 ()).2.1.Sorted (· < ·) ∧
      (withMiddleware (fun e _ => ⟨200 + e⟩)
        [⟨true, id, id, none⟩, ⟨false, id, id, some ⟨403⟩⟩] 7 ()).1 = ⟨403⟩ ∧
      (withMiddleware (fun e _ => ⟨200 + e⟩)
        [⟨true, id, id, none⟩, ⟨false, id, id, some ⟨403⟩⟩] 7 ()).2.2 = false ∧
      (withMiddleware (fun e _ => ⟨200 + e⟩)
        [⟨true, id, id, none⟩, ⟨false, id, id, some ⟨403⟩⟩] 7 ()).2.1 =
        List.range' 0 2 :=
  withMiddleware_run (fun e _ => ⟨200 + e⟩)
    [⟨true, id, id, none⟩, ⟨false, id, id, some ⟨403⟩⟩] 7 () 1 ⟨403⟩
    (by decide) (by simp) (by decide) (by intro k hk; interval_cases k; simp [scB])

/-- C1 counterexample: a single middleware step that does not call `next` and
returns `null` does not halt the chain — the handler still runs and its
response (here `207`, from the untouched event `7`) is the final result,
contradicting the claim that such a step halts the chain so that no later
step or the handler runs. -/
theorem withMiddleware_noNext_does_not_halt :
    ([(⟨false, id, id, none⟩ : WStep Nat Unit)].getD 0 (wdefault Nat Unit)).callsNext
        = false ∧
      (withMiddleware (fun e _ => ⟨200 + e⟩)
        [(⟨false, id, id, none⟩ : WStep Nat Unit)] 7 ()).2.2 = true ∧
      (withMiddleware (fun e _ => ⟨200 + e⟩)
        [(⟨false, id, id, none⟩ : WStep Nat Unit)] 7 ()).1 = ⟨207⟩ :=
  ⟨rfl, rfl, rfl⟩

/-! ## Middleware: `rateLimitingMiddleware` (src/utilities/middleware/index.js 271-310)

The closure keeps a `Map` from caller identity to the list of request
timestamps.  On each call it derives the identity from
`event.requestContext?.identity?.sourceIp || 'unknown'`, lazily prunes the
identity's timestamps to those strictly inside the window, short-circuits
with 429 + `Retry-After` when the pruned count has reached the maximum, and
otherwise records the current timestamp and calls `next`.  `Date.now()` is
the explicit `now` parameter. -/

/-- The 429 short-circuit response of the rate limiter: status code and the
value of its `Retry-After` header (`Math.ceil(windowMs / 1000)`). -/
structure RLResponse where
  statusCode : Nat
  retryAfter : Nat
deriving DecidableEq, Repr

/-- One rate-limiter invocation for a single caller identity, acting on that
identity's stored timestamp list.  Returns `some response` when the call is
short-circuited with 429 (so `next` is not called) or `none` when the request
passes through to `next`, together with the new stored list. -/
def rateLimitCall (maxRequests windowMs : Nat) (st : List Int) (now : Int) :
    Option RLResponse × List Int :=
  let windowStart : Int := now - windowMs
  let clientRequests := st.filter (fun time => windowStart < time)
  if maxRequests ≤ clientRequests.length then
    (some ⟨429, (windowMs + 999) / 1000⟩, clientRequests)
  else
    (none, clientRequests ++ [now])

/-- The event shape the rate limiter reads: only
`requestContext?.identity?.sourceIp` matters (`none` models a missing
`requestContext`/`identity`/`sourceIp` chain). -/
structure RLEvent where
  sourceIp : Option String
deriving DecidableEq, Repr

/-- Caller identity: `event.requestContext?.identity?.sourceIp || 'unknown'`
(`||` also replaces an empty-string IP, which is falsy). -/
def clientIdOf (e : RLEvent) : String :=
  match e.sourceIp with
  | some s => if s = "" then "unknown" else s
  | none => "unknown"

/-- One invocation of the full rate-limiting middleware over the closure's
identity → timestamps map (modelled as a total function defaulting to `[]`,
matching `requests.get(clientId) || []`). -/
def rateLimitMW (maxRequests windowMs : Nat) (requests : String → List Int)
    (e : RLEvent) (now : Int) : Option RLResponse × (String → List Int) :=
  let clientId := clientIdOf e
  let p := rateLimitCall maxRequests windowMs (requests clientId) now
  (p.1, fun c => if c = clientId then p.2 else requests c)

/-- C6: with `maxRequests = 2`, for one caller identity starting from an
empty window: the first and second calls inside the window pass through to
`next` (`none`), the third call inside the window short-circuits with a 429
response carrying the `Retry-After` header `⌈windowMs / 1000⌉` (so `next` is
not called), and a call made once the window has elapsed since both earlier
requests passes through again. -/
theorem rateLimit_two_per_window (w : Nat) (t1 t2 t3 t4 : Int)
    (h21 : t2 - w < t1) (h31 : t3 - w < t1) (h32 : t3 - w < t2)
    (h41 : t1 ≤ t4 - w) (h42 : t2 ≤ t4 - w) :
    rateLimitCall 2 w [] t1 = (none, [t1]) ∧
      rateLimitCall 2 w [t1] t2 = (none, [t1, t2]) ∧
      rateLimitCall 2 w [t1, t2] t3 = (some ⟨429, (w + 999) / 1000⟩, [t1, t2]) ∧
      rateLimitCall 2 w [t1, t2] t4 = (none, [t4]) := by
  have h41' : ¬ (t4 - (w : Int) < t1) := by omega
  have h42' : ¬ (t4 - (w : Int) < t2) := by omega
  refine ⟨?_, ?_, ?_, ?_⟩
  · simp [rateLimitCall]
  · simp [rateLimitCall, h21]
  · simp [rateLimitCall, h31, h32]
  · simp [rateLimitCall, h41', h42']

/-- Witness for C6: `windowMs = 60000`, requests at 0, 1 and 2 ms, then a
request at 60001 ms after the window has elapsed. -/
theorem rateLimit_two_per_window_witness :
    rateLimitCall 2 60000 [] 0 = (none, [0]) ∧
      rateLimitCall 2 60000 [0] 1 = (none, [0, 1]) ∧
      rateLimitCall 2 60000 [0, 1] 2 = (some ⟨429, 60⟩, [0, 1]) ∧
      rateLimitCall 2 60000 [0, 1] 60001 = (none, [60001]) :=
  rateLimit_two_per_window 60000 0 1 2 60001 (by decide) (by decide) (by decide)
    (by decide) (by decide)

/-- C10: every event lacking a `sourceIp` is attributed to the one shared
identity `"unknown"`, so unidentified requests consume one common per-window
budget: three such requests (conceptually from different callers) inside one
window, against `maxRequests = 2`, see the third short-circuited with 429. -/
theorem rateLimit_unknown_shared_budget (w : Nat) (t1 t2 t3 : Int)
    (e1 e2 e3 : RLEvent)
    (he1 : e1.sourceIp = none) (he2 : e2.sourceIp = none) (he3 : e3.sourceIp = none)
    (h21 : t2 - w < t1) (h31 : t3 - w < t1) (h32 : t3 - w < t2) :
    clientIdOf e1 = "unknown" ∧ clientIdOf e2 = "unknown" ∧
      clientIdOf e3 = "unknown" ∧
      (rateLimitMW 2 w (fun _ => []) e1 t1).1 = none ∧
      (rateLimitMW 2 w (rateLimitMW 2 w (fun _ => []) e1 t1).2 e2 t2).1 = none ∧
      (rateLimitMW 2 w
          (rateLimitMW 2 w (rateLimitMW 2 w (fun _ => []) e1 t1).2 e2 t2).2
          e3 t3).1 = some ⟨429, (w + 999) / 1000⟩ := by
  have hc1 : clientIdOf e1 = "unknown" := by simp [clientIdOf, he1]
  have hc2 : clientIdOf e2 = "unknown" := by simp [clientIdOf, he2]
  have hc3 : clientIdOf e3 = "unknown" := by simp [clientIdOf, he3]
  refine ⟨hc1, hc2, hc3, ?_, ?_, ?_⟩
  · simp [rateLimitMW, rateLimitCall]
  · simp [rateLimitMW, rateLimitCall, hc1, hc2, h21]
  · simp [rateLimitMW, rateLimitCall, hc1, hc2, hc3, h21, h31, h32]

/-- Witness for C10: three events with no `sourceIp` at 0, 1 and 2 ms in a
60-second window; the third is rate-limited. -/
theorem rateLimit_unknown_shared_budget_witness :
    clientIdOf ⟨none⟩ = "unknown" ∧ clientIdOf ⟨none⟩ = "unknown" ∧
      clientIdOf ⟨none⟩ = "unknown" ∧
      (rateLimitMW 2 60000 (fun _ => []) ⟨none⟩ 0).1 = none ∧
      (rateLimitMW 2 60000 (rateLimitMW 2 60000 (fun _ => []) ⟨none⟩ 0).2 ⟨none⟩ 1).1
          = none ∧
      (rateLimitMW 2 60000
          (rateLimitMW 2 60000 (rateLimitMW 2 60000 (fun _ => []) ⟨none⟩ 0).2 ⟨none⟩ 1).2
          ⟨none⟩ 2).1 = some ⟨429, 60⟩ :=
  rateLimit_unknown_shared_budget 60000 0 1 2 ⟨none⟩ ⟨none⟩ ⟨none⟩ rfl rfl rfl
    (by decide) (by decide) (by decide)

/-! ## Middleware: `corsMiddleware` (src/utilities/middleware/index.js 9-38) -/

/-- A CORS header value: the defaults mix strings and the boolean `true`. -/
inductive HVal where
  | str (s : String)
  | bool (b : Bool)
deriving DecidableEq, Repr

/-- `MiddlewareHelper.DEFAULT_CORS_HEADERS`. -/
def DEFAULT_CORS_HEADERS : List (String × HVal) :=
  [("Access-Control-Allow-Origin", HVal.str "*"),
   ("Access-Control-Allow-Credentials", HVal.bool true),
   ("Access-Control-Allow-Headers",
     HVal.str "Content-Type,X-Amz-Date,Authorization,X-Api-Key,X-Amz-Security-Token,X-Correlation-ID"),
   ("Access-Control-Allow-Methods", HVal.str "GET,POST,PUT,DELETE,OPTIONS")]

/-- The slice of the event `corsMiddleware` reads. -/
structure CorsEvent where
  httpMethod : String
deriving DecidableEq, Repr

/-- The response shape produced by `corsMiddleware`. -/
structure CorsResponse where
  statusCode : Nat
  headers : List (String × HVal)
  body : String
deriving DecidableEq, Repr

/-- The preflight response: 200, the default CORS headers spread together
with `Access-Control-Max-Age: 86400`, and an empty body. -/
def corsPreflightResponse : CorsResponse :=
  ⟨200, DEFAULT_CORS_HEADERS ++ [("Access-Control-Max-Age", HVal.str "86400")], ""⟩

/-- `corsMiddleware(event, context, next)`: return the preflight response on
`OPTIONS`, otherwise `next(event, context)`. -/
def corsMiddleware {C : Type} (next : CorsEvent → C → CorsResponse)
    (e : CorsEvent) (c : C) : CorsResponse :=
  if e.httpMethod = "OPTIONS" then corsPreflightResponse else next e c

/-- C7: on an `OPTIONS` event the CORS middleware returns status 200, the
default CORS headers plus `Access-Control-Max-Age`, and an empty body, and
the result does not depend on `next` (no later step runs); on any other
method it returns exactly `next event context`. -/
theorem corsMiddleware_preflight {C : Type}
    (next next' : CorsEvent → C → CorsResponse) (e : CorsEvent) (c : C) :
    (e.httpMethod = "OPTIONS" →
        corsMiddleware next e c = corsPreflightResponse ∧
        corsMiddleware next e c = corsMiddleware next' e c ∧
        (corsMiddleware next e c).statusCode = 200 ∧
        (corsMiddleware next e c).headers =
          DEFAULT_CORS_HEADERS ++ [("Access-Control-Max-Age", HVal.str "86400")] ∧
        (corsMiddleware next e c).body = "") ∧
      (e.httpMethod ≠ "OPTIONS" → corsMiddleware next e c = next e c) := by
  constructor
  · intro h
    refine ⟨?_, ?_, ?_, ?_, ?_⟩ <;> simp [corsMiddleware, h, corsPreflightResponse]
  · intro h
    simp [corsMiddleware, h]

/-- Witness for C7: a concrete `OPTIONS` event with a `next` that would
return a 500; the preflight response is produced instead, and a concrete
`GET` event is delegated to `next`. -/
theorem corsMiddleware_preflight_witness :
    corsMiddleware (fun _ _ => ⟨500, [], "boom"⟩) ⟨"OPTIONS"⟩ () =
        corsPreflightResponse ∧
      corsMiddleware (fun _ _ => ⟨500, [], "boom"⟩) ⟨"GET"⟩ () = ⟨500, [], "boom"⟩ :=
  ⟨((corsMiddleware_preflight (fun _ _ => ⟨500, [], "boom"⟩)
      (fun _ _ => ⟨204, [], ""⟩) ⟨"OPTIONS"⟩ ()).1 rfl).1,
    (corsMiddleware_preflight (fun _ _ => ⟨500, [], "boom"⟩)
      (fun _ _ => ⟨204, [], ""⟩) ⟨"GET"⟩ ()).2 (by decide)⟩

/-! ## A small JavaScript value universe

Used to embed the validation helpers (src/utilities/validation/index.js) and
the error payloads of the error handler.  `nan` is the number `NaN`;
`jdate ms` is a `Date` object whose `getTime()` is `ms` (`none` for an
invalid date).  JavaScript string indexing / `length` are modelled on
unicode characters. -/

inductive JVal where
  | null
  | undef
  | nan
  | bool (b : Bool)
  | num (q : Rat)
  | str (s : String)
  | jdate (ms : Option Int)
  | arr (elems : List JVal)
  | obj (fields : List (String × JVal))
deriving BEq, Repr

/-- JavaScript truthiness: `null`, `undefined`, `NaN`, `false`, `0` and `""`
are falsy; every object (arrays and dates included) is truthy. -/
def jsTruthy : JVal → Bool
  | JVal.null => false
  | JVal.undef => false
  | JVal.nan => false
  | JVal.bool b => b
  | JVal.num q => q != 0
  | JVal.str s => s != ""
  | JVal.jdate _ => true
  | JVal.arr _ => true
  | JVal.obj _ => true

/-- JavaScript `typeof`. -/
def jsTypeof : JVal → String
  | JVal.null => "object"
  | JVal.undef => "undefined"
  | JVal.nan => "number"
  | JVal.bool _ => "boolean"
  | JVal.num _ => "number"
  | JVal.str _ => "string"
  | JVal.jdate _ => "object"
  | JVal.arr _ => "object"
  | JVal.obj _ => "object"

/-- Host primitives of the JavaScript runtime, passed explicitly:
`Number(string)` and `Number(object)` coercion (`none` is `NaN`) and
`new Date(string).getTime()` (`none` is an invalid date). -/
structure JSEnv where
  stringToNumber : String → Option Rat
  coerceToNumber : JVal → Option Rat
  parseDate : String → Option Int

/-- JavaScript `Number(value)` for the values reaching it in the validators
(`null`/`undefined` are screened before the call in the source, but the
coercion is total anyway). -/
def jsToNumber (env : JSEnv) : JVal → Option Rat
  | JVal.null => some 0
  | JVal.undef => none
  | JVal.nan => none
  | JVal.bool b => some (if b then 1 else 0)
  | JVal.num q => some q
  | JVal.str s => env.stringToNumber s
  | v => env.coerceToNumber v

/-- JavaScript `Number.isInteger(value)`. -/
def jsIsInteger : JVal → Bool
  | JVal.num q => q.den == 1
  | _ => false

/-- Whether the character list starting at the head begins with the pattern
(helper for `String.prototype.includes`). -/
def strLeads : List Char → List Char → Bool
  | [], _ => true
  | _ :: _, [] => false
  | p :: ps, c :: cs => p == c && strLeads ps cs

/-- Substring search over characters. -/
def strIncludesAux : List Char → List Char → Bool
  | _, [] => true
  | [], _ :: _ => false
  | c :: cs, pat => if strLeads pat (c :: cs) then true else strIncludesAux cs pat

/-- JavaScript `s.includes(pat)`. -/
def jsIncludes (s pat : String) : Bool :=
  strIncludesAux s.toList pat.toList

/-! ## Validation helpers (src/utilities/validation/index.js)

Regex tests are translated from `ValidationHelper.PATTERNS` into executable
character predicates (`\s` is modelled by `Char.isWhitespace`). -/

/-- Character class `[^\s@]`. -/
def emailChar (c : Char) : Bool :=
  !c.isWhitespace && c != '@'

/-- `PATTERNS.EMAIL = /^[^\s@]+@[^\s@]+\.[^\s@]+$/`: the string decomposes as
`local@domain` with non-empty `local` free of whitespace/`@`, and `domain`
free of whitespace/`@` containing a dot that is neither its first nor its
last character. -/
def emailTest (s : String) : Bool :=
  match s.splitOn "@" with
  | [localPart, domain] =>
      localPart != "" && localPart.toList.all emailChar && domain.toList.all emailChar &&
        ((domain.toList.drop 1).dropLast.contains '.')
  | _ => false

/-- Hex digit of `PATTERNS.UUID` (the pattern carries the `i` flag). -/
def uuidHexChar (c : Char) : Bool :=
  c.isDigit || ('a' ≤ c.toLower && c.toLower ≤ 'f')

/-- One dashed group of a UUID: given length, all hex. -/
def uuidGroup (g : List Char) (n : Nat) : Bool :=
  g.length == n && g.all uuidHexChar

/-- `PATTERNS.UUID`: `8-4-4-4-12` hex groups, version digit `1`-`5`, variant
nibble `[89ab]`, case-insensitive. -/
def uuidTest (s : String) : Bool :=
  match (s.splitOn "-").map String.toList with
  | [g1, g2, g3, g4, g5] =>
      uuidGroup g1 8 && uuidGroup g2 4 && uuidGroup g3 4 && uuidGroup g4 4 &&
        uuidGroup g5 12 &&
        (match g3 with
         | v :: _ => '1' ≤ v && v ≤ '5'
         | [] => false) &&
        (match g4 with
         | v :: _ => v.toLower == '8' || v.toLower == '9' || v.toLower == 'a' ||
             v.toLower == 'b'
         | [] => false)
  | _ => false

/-- `PATTERNS.USERNAME = /^[a-zA-Z0-9]{3,30}$/`. -/
def usernameTest (s : String) : Bool :=
  3 ≤ s.length && s.length ≤ 30 && s.toList.all Char.isAlphanum

/-- Character class `[\d\s\-\(\)]` of `PATTERNS.PHONE`. -/
def phoneChar (c : Char) : Bool :=
  c.isDigit || c.isWhitespace || c == '-' || c == '(' || c == ')'

/-- `PATTERNS.PHONE = /^\+?[\d\s\-\(\)]+$/`. -/
def phoneTest (s : String) : Bool :=
  match s.toList with
  | [] => false
  | '+' :: rest => rest != [] && rest.all phoneChar
  | cs => cs.all phoneChar

/-- `ValidationHelper`'s validation result triple. -/
structure ValidationResult where
  isValid : Bool
  errors : List String
  value : JVal
deriving BEq, Repr

/-- `createValidationResult(isValid, errors = [], value = null)`. -/
def createValidationResult (isValid : Bool) (errors : List String)
    (value : JVal) : ValidationResult :=
  ⟨isValid, errors, value⟩

/-- `Number.MAX_SAFE_INTEGER`. -/
def maxSafeInteger : Rat := 9007199254740991

/-- `Number.MIN_SAFE_INTEGER`. -/
def minSafeInteger : Rat := -9007199254740991

/-- `validateEmail(email, required = true)`. -/
def validateEmail (email : JVal) (required : Bool) : ValidationResult :=
  if jsTruthy email = false then
    if required then createValidationResult false ["Email is required"] JVal.null
    else createValidationResult true [] JVal.null
  else
    match email with
    | JVal.str s =>
        let sanitized := s.trim.toLower
        if emailTest sanitized = false then
          createValidationResult false ["Invalid email format"] JVal.null
        else if 254 < sanitized.length then
          createValidationResult false ["Email is too long (max 254 characters)"]
            JVal.null
        else createValidationResult true [] (JVal.str sanitized)
    | _ => createValidationResult false ["Email must be a string"] JVal.null

/-- `validateRequired(value, fieldName = 'Field')`: rejects exactly `null`,
`undefined` and the empty string (not general falsiness). -/
def validateRequired (value : JVal) (fieldName : String) : ValidationResult :=
  match value with
  | JVal.null => createValidationResult false [fieldName ++ " is required"] JVal.null
  | JVal.undef => createValidationResult false [fieldName ++ " is required"] JVal.null
  | JVal.str "" =>
      createValidationResult false [fieldName ++ " is required"] JVal.null
  | v => createValidationResult true [] v

/-- `validateStringLength(value, minLength = 0, maxLength = 255, fieldName,
required = true)`. -/
def validateStringLength (value : JVal) (minLength maxLength : Nat)
    (fieldName : String) (required : Bool) : ValidationResult :=
  if jsTruthy value = false then
    if required then
      createValidationResult false [fieldName ++ " is required"] JVal.null
    else createValidationResult true [] JVal.null
  else
    match value with
    | JVal.str s =>
        let sanitized := s.trim
        if sanitized.length < minLength then
          createValidationResult false
            [fieldName ++ " must be at least " ++ toString minLength ++
              " characters long"] JVal.null
        else if maxLength < sanitized.length then
          createValidationResult false
            [fieldName ++ " must be no more than " ++ toString maxLength ++
              " characters long"] JVal.null
        else createValidationResult true [] (JVal.str sanitized)
    | _ => createValidationResult false [fieldName ++ " must be a string"] JVal.null

/-- `validateUUID(value, fieldName = 'ID', required = true)`. -/
def validateUUID (value : JVal) (fieldName : String) (required : Bool) :
    ValidationResult :=
  if jsTruthy value = false then
    if required then
      createValidationResult false [fieldName ++ " is required"] JVal.null
    else createValidationResult true [] JVal.null
  else
    match value with
    | JVal.str s =>
        let sanitized := s.trim.toLower
        if uuidTest sanitized = false then
          createValidationResult false ["Invalid " ++ fieldName ++ " format"] JVal.null
        else createValidationResult true [] (JVal.str sanitized)
    | _ => createValidationResult false [fieldName ++ " must be a string"] JVal.null

/-- `validateNumber(value, min, max, fieldName = 'Number', required = true)`. -/
def validateNumber (env : JSEnv) (value : JVal) (minV maxV : Rat)
    (fieldName : String) (required : Bool) : ValidationResult :=
  match value with
  | JVal.null =>
      if required then
        createValidationResult false [fieldName ++ " is required"] JVal.null
      else createValidationResult true [] JVal.null
  | JVal.undef =>
      if required then
        createValidationResult false [fieldName ++ " is required"] JVal.null
      else createValidationResult true [] JVal.null
  | v =>
      match jsToNumber env v with
      | none =>
          createValidationResult false [fieldName ++ " must be a valid number"]
            JVal.null
      | some q =>
          if q < minV then
            createValidationResult false
              [fieldName ++ " must be at least " ++ toString minV] JVal.null
          else if maxV < q then
            createValidationResult false
              [fieldName ++ " must be no more than " ++ toString maxV] JVal.null
          else createValidationResult true [] (JVal.num q)

/-- `validateInteger(value, min, max, fieldName = 'Integer',
required = true)`. -/
def validateInteger (env : JSEnv) (value : JVal) (minV maxV : Rat)
    (fieldName : String) (required : Bool) : ValidationResult :=
  let numberValidation := validateNumber env value minV maxV fieldName required
  if numberValidation.isValid = false then numberValidation
  else
    match numberValidation.value with
    | JVal.null => numberValidation
    | v =>
        if jsIsInteger v = false then
          createValidationResult false [fieldName ++ " must be an integer"] JVal.null
        else numberValidation

/-- `validateDate(value, fieldName = 'Date', required = true)`. -/
def validateDate (env : JSEnv) (value : JVal) (fieldName : String)
    (required : Bool) : ValidationResult :=
  if jsTruthy value = false then
    if required then
      createValidationResult false [fieldName ++ " is required"] JVal.null
    else createValidationResult true [] JVal.null
  else
    match value with
    | JVal.jdate ms =>
        (match ms with
         | none =>
             createValidationResult false [fieldName ++ " must be a valid date"]
               JVal.null
         | some t => createValidationResult true [] (JVal.jdate (some t)))
    | JVal.str s =>
        (match env.parseDate s with
         | none =>
             createValidationResult false [fieldName ++ " must be a valid date"]
               JVal.null
         | some t => createValidationResult true [] (JVal.jdate (some t)))
    | _ => createValidationResult false [fieldName ++ " must be a valid date"] JVal.null

/-- Rendering used by `allowedValues.join(', ')` in the enum error message. -/
def jvalRender : JVal → String
  | JVal.null => "null"
  | JVal.undef => "undefined"
  | JVal.nan => "NaN"
  | JVal.bool b => if b then "true" else "false"
  | JVal.num q => toString q
  | JVal.str s => s
  | JVal.jdate _ => "[Date]"
  | JVal.arr _ => "[Array]"
  | JVal.obj _ => "[object Object]"

/-- `validateEnum(value, allowedValues, fieldName = 'Field',
required = true)`. -/
def validateEnum (value : JVal) (allowedValues : List JVal) (fieldName : String)
    (required : Bool) : ValidationResult :=
  if jsTruthy value = false then
    if required then
      createValidationResult false [fieldName ++ " is required"] JVal.null
    else createValidationResult true [] JVal.null
  else if allowedValues.contains value = false then
    createValidationResult false
      [fieldName ++ " must be one of: " ++
        String.intercalate ", " (allowedValues.map jvalRender)] JVal.null
  else createValidationResult true [] value

/-- `validateArray(value, minLength = 0, maxLength = 1000, fieldName,
required = true)`. -/
def validateArray (value : JVal) (minLength maxLength : Nat)
    (fieldName : String) (required : Bool) : ValidationResult :=
  if jsTruthy value = false then
    if required then
      createValidationResult false [fieldName ++ " is required"] JVal.null
    else createValidationResult true [] JVal.null
  else
    match value with
    | JVal.arr elems =>
        if elems.length < minLength then
          createValidationResult false
            [fieldName ++ " must have at least " ++ toString minLength ++ " items"]
            JVal.null
        else if maxLength < elems.length then
          createValidationResult false
            [fieldName ++ " must have no more than " ++ toString maxLength ++
              " items"] JVal.null
        else createValidationResult true [] (JVal.arr elems)
    | _ => createValidationResult false [fieldName ++ " must be an array"] JVal.null

/-- `validatePhone(phone, required = true)`. -/
def validatePhone (phone : JVal) (required : Bool) : ValidationResult :=
  if jsTruthy phone = false then
    if required then
      createValidationResult false ["Phone number is required"] JVal.null
    else createValidationResult true [] JVal.null
  else
    match phone with
    | JVal.str s =>
        let sanitized := s.trim
        if phoneTest sanitized = false then
          createValidationResult false ["Invalid phone number format"] JVal.null
        else if 20 < sanitized.length then
          createValidationResult false ["Phone number is too long"] JVal.null
        else createValidationResult true [] (JVal.str sanitized)
    | _ => createValidationResult false ["Phone number must be a string"] JVal.null

/-- `validateUsername(username, required = true)`. -/
def validateUsername (username : JVal) (required : Bool) : ValidationResult :=
  if jsTruthy username = false then
    if required then
      createValidationResult false ["Username is required"] JVal.null
    else createValidationResult true [] JVal.null
  else
    match username with
    | JVal.str s =>
        let sanitized := s.trim
        if usernameTest sanitized = false then
          createValidationResult false
            ["Username must be 3-30 alphanumeric characters"] JVal.null
        else createValidationResult true [] (JVal.str sanitized)
    | _ => createValidationResult false ["Username must be a string"] JVal.null

/-- `data[field]` for the object-validation loop. -/
def jsGetField (data : JVal) (field : String) : JVal :=
  match data with
  | JVal.obj fields => (fields.lookup field).getD JVal.undef
  | _ => JVal.undef

/-- The `for (const [field, validator] of Object.entries(validators))` loop
of `validateObject`: collects the field-prefixed errors and the mapping of
fields that validated to a non-`null`/`undefined` value, in declaration
order. -/
def validateObjectLoop (data : JVal) :
    List (String × (JVal → ValidationResult)) → List String × List (String × JVal)
  | [] => ([], [])
  | (field, validator) :: rest =>
      let result := validator (jsGetField data field)
      let tail := validateObjectLoop data rest
      if result.isValid = false then
        (result.errors.map (fun er => field ++ ": " ++ er) ++ tail.1, tail.2)
      else
        match result.value with
        | JVal.null => (tail.1, tail.2)
        | JVal.undef => (tail.1, tail.2)
        | v => (tail.1, (field, v) :: tail.2)

/-- `validateObject(data, validators)`. -/
def validateObject (data : JVal)
    (validators : List (String × (JVal → ValidationResult))) : ValidationResult :=
  if jsTruthy data = false then
    createValidationResult false ["Data must be an object"] JVal.null
  else if jsTypeof data != "object" then
    createValidationResult false ["Data must be an object"] JVal.null
  else
    let p := validateObjectLoop data validators
    if 0 < p.1.length then createValidationResult false p.1 JVal.null
    else createValidationResult true [] (JVal.obj p.2)

/-- A validation result re-encoded as the JavaScript object it is, as seen
by the `||` operator in `validatePagination`. -/
def vrAsJVal (r : ValidationResult) : JVal :=
  JVal.obj [("isValid", JVal.bool r.isValid),
    ("errors", JVal.arr (r.errors.map JVal.str)), ("value", r.value)]

/-- JavaScript `a || b` on two validation-result objects: `a` when truthy. -/
def jsOrVR (a b : ValidationResult) : ValidationResult :=
  if jsTruthy (vrAsJVal a) then a else b

/-- The `limit` entry of `validatePagination`'s validators:
`(value) => this.validateInteger(value, 1, 100, 'Limit', false) ||
{isValid: true, value: 20}`. -/
def paginationLimitValidator (env : JSEnv) (value : JVal) : ValidationResult :=
  jsOrVR (validateInteger env value 1 100 "Limit" false)
    (createValidationResult true [] (JVal.num 20))

/-- The `offset` entry of `validatePagination`'s validators. -/
def paginationOffsetValidator (env : JSEnv) (value : JVal) : ValidationResult :=
  jsOrVR (validateInteger env value 0 maxSafeInteger "Offset" false)
    (createValidationResult true [] (JVal.num 0))

/-- `validatePagination(params = {})`. -/
def validatePagination (env : JSEnv) (params : JVal) : ValidationResult :=
  validateObject params
    [("limit", paginationLimitValidator env),
     ("offset", paginationOffsetValidator env),
     ("lastEvaluatedKey",
       fun value => validateStringLength value 1 1000 "LastEvaluatedKey" false)]

/-! ### The ValidationResult invariant (spec §3) -/

/-- The spec's invariant on validation results: an invalid result carries a
`null` value, a valid one carries no errors. -/
def vrInv (r : ValidationResult) : Prop :=
  (r.isValid = false → r.value = JVal.null) ∧ (r.isValid = true → r.errors = [])

lemma vrInv_false (es : List String) : vrInv (createValidationResult false es JVal.null) := by
  simp [vrInv, createValidationResult]

lemma vrInv_true (v : JVal) : vrInv (createValidationResult true [] v) := by
  simp [vrInv, createValidationResult]

lemma vrInv_validateEmail (email : JVal) (required : Bool) :
    vrInv (validateEmail email required) := by
  unfold validateEmail
  try dsimp only
  repeat' split
  all_goals first | exact vrInv_false _ | exact vrInv_true _

lemma vrInv_validateRequired (value : JVal) (fieldName : String) :
    vrInv (validateRequired value fieldName) := by
  unfold validateRequired
  try dsimp only
  repeat' split
  all_goals first | exact vrInv_false _ | exact vrInv_true _

lemma vrInv_validateStringLength (value : JVal) (minLength maxLength : Nat)
    (fieldName : String) (required : Bool) :
    vrInv (validateStringLength value minLength maxLength fieldName required) := by
  unfold validateStringLength
  try dsimp only
  repeat' split
  all_goals first | exact vrInv_false _ | exact vrInv_true _

lemma vrInv_validateUUID (value : JVal) (fieldName : String) (required : Bool) :
    vrInv (validateUUID value fieldName required) := by
  unfold validateUUID
  try dsimp only
  repeat' split
  all_goals first | exact vrInv_false _ | exact vrInv_true _

lemma vrInv_validateNumber (env : JSEnv) (value : JVal) (minV maxV : Rat)
    (fieldName : String) (required : Bool) :
    vrInv (validateNumber env value minV maxV fieldName required) := by
  unfold validateNumber
  try dsimp only
  repeat' split
  all_goals first | exact vrInv_false _ | exact vrInv_true _

lemma vrInv_validateInteger (env : JSEnv) (value : JVal) (minV maxV : Rat)
    (fieldName : String) (required : Bool) :
    vrInv (validateInteger env value minV maxV fieldName required) := by
  have hn := vrInv_validateNumber env value minV maxV fieldName required
  unfold validateInteger
  try dsimp only
  split
  · exact hn
  · split
    · exact hn
    · split
      · exact vrInv_false _
      · exact hn

lemma vrInv_validateDate (env : JSEnv) (value : JVal) (fieldName : String)
    (required : Bool) : vrInv (validateDate env value fieldName required) := by
  unfold validateDate
  try dsimp only
  repeat' split
  all_goals first | exact vrInv_false _ | exact vrInv_true _

lemma vrInv_validateEnum (value : JVal) (allowedValues : List JVal)
    (fieldName : String) (required : Bool) :
    vrInv (validateEnum value allowedValues fieldName required) := by
  unfold validateEnum
  try dsimp only
  repeat' split
  all_goals first | exact vrInv_false _ | exact vrInv_true _

lemma vrInv_validateArray (value : JVal) (minLength maxLength : Nat)
    (fieldName : String) (required : Bool) :
    vrInv (validateArray value minLength maxLength fieldName required) := by
  unfold validateArray
  try dsimp only
  repeat' split
  all_goals first | exact vrInv_false _ | exact vrInv_true _

lemma vrInv_validatePhone (phone : JVal) (required : Bool) :
    vrInv (validatePhone phone required) := by
  unfold validatePhone
  try dsimp only
  repeat' split
  all_goals first | exact vrInv_false _ | exact vrInv_true _

lemma vrInv_validateUsername (username : JVal) (required : Bool) :
    vrInv (validateUsername username required) := by
  unfold validateUsername
  try dsimp only
  repeat' split
  all_goals first | exact vrInv_false _ | exact vrInv_true _

lemma vrInv_validateObject (data : JVal)
    (validators : List (String × (JVal → ValidationResult))) :
    vrInv (validateObject data validators) := by
  unfold validateObject
  try dsimp only
  repeat' split
  all_goals first | exact vrInv_false _ | exact vrInv_true _

/-- C9: every result produced by the twelve validators satisfies the
invariant: if `isValid` is false the value is `null`; if `isValid` is true
the error list is empty.  (`validateObject` satisfies it for arbitrary
per-field validators.) -/
theorem validators_result_invariant (env : JSEnv) (v data : JVal)
    (required : Bool) (fieldName : String) (minLength maxLength : Nat)
    (minV maxV : Rat) (allowedValues : List JVal)
    (validators : List (String × (JVal → ValidationResult))) :
    vrInv (validateEmail v required) ∧
      vrInv (validateRequired v fieldName) ∧
      vrInv (validateStringLength v minLength maxLength fieldName required) ∧
      vrInv (validateUUID v fieldName required) ∧
      vrInv (validateNumber env v minV maxV fieldName required) ∧
      vrInv (validateInteger env v minV maxV fieldName required) ∧
      vrInv (validateDate env v fieldName required) ∧
      vrInv (validateEnum v allowedValues fieldName required) ∧
      vrInv (validateArray v minLength maxLength fieldName required) ∧
      vrInv (validatePhone v required) ∧
      vrInv (validateUsername v required) ∧
      vrInv (validateObject data validators) :=
  ⟨vrInv_validateEmail v required, vrInv_validateRequired v fieldName,
    vrInv_validateStringLength v minLength maxLength fieldName required,
    vrInv_validateUUID v fieldName required,
    vrInv_validateNumber env v minV maxV fieldName required,
    vrInv_validateInteger env v minV maxV fieldName required,
    vrInv_validateDate env v fieldName required,
    vrInv_validateEnum v allowedValues fieldName required,
    vrInv_validateArray v minLength maxLength fieldName required,
    vrInv_validatePhone v required, vrInv_validateUsername v required,
    vrInv_validateObject data validators⟩

/-- C8: the right-hand operand of `||` in `validatePagination`'s `limit` and
`offset` validators is unreachable: the validator call always returns a
validation-result object, which is truthy, so `a || b` yields `a` for every
input; consequently `validatePagination({})` is valid with an empty value
mapping — the defaults 20 and 0 are never applied. -/
theorem validatePagination_fallback_unreachable (env : JSEnv) (v : JVal) :
    jsTruthy (vrAsJVal (validateInteger env v 1 100 "Limit" false)) = true ∧
      paginationLimitValidator env v = validateInteger env v 1 100 "Limit" false ∧
      paginationOffsetValidator env v =
        validateInteger env v 0 maxSafeInteger "Offset" false ∧
      validatePagination env (JVal.obj []) =
        createValidationResult true [] (JVal.obj []) :=
  ⟨rfl, rfl, rfl, rfl⟩

/-! ## Error taxonomy mapper: `ErrorHandler.handleError`

The switch dispatches on `error.name`.  The generated request id (from
`generateRequestId()`, which mixes `Date.now()` and `Math.random()`), the
ISO timestamp and `process.env.NODE_ENV === 'development'` are host inputs,
passed as parameters `genId`, `timestamp` and `devMode`.  Because the
`SyntaxError` case `break`s out of the switch when the message does not
contain "JSON" and no statement follows the switch, the method can fall off
its end: the result type is therefore `Option ErrResponse`, with `none`
standing for the returned `undefined`. -/

/-- The slice of a JavaScript error value read by `handleError`:
`name`, `message`, the `NotFoundError` extras `resource`/`id`, the payloads
`errors`/`details`, and the fields used by the development-mode diagnostics
(`stack`, constructor name, `code`). -/
structure JSError where
  name : String
  message : String
  resource : Option String
  id : Option String
  errors : JVal
  details : JVal
  stack : String
  constructorName : String
  codeProp : JVal

/-- The `context` argument of `handleError`. -/
structure ErrCtx where
  correlationId : Option String
  awsRequestId : Option String

/-- JavaScript `a || b` for an optional string against a fallback
(`undefined` and `""` are falsy). -/
def jsOrStr (a : Option String) (b : String) : String :=
  match a with
  | some s => if s = "" then b else s
  | none => b

/-- The error response object built by `createErrorResponse`:
`code` and `details` keys are present only when truthy (the source spreads
`...(code && { code })` and `...(details && { details })`). -/
structure ErrResponse where
  message : String
  code : Option String
  details : Option JVal
  requestId : String
  correlationId : String
  timestamp : String
  statusCode : Nat

/-- `createErrorResponse(message, statusCode = 500, code = null,
details = null, correlationId = null)`; `genId` is the value
`generateRequestId()` would produce, `timestamp` the value of
`new Date().toISOString()`. -/
def createErrorResponse (message : String) (statusCode : Nat)
    (code : Option String) (details : JVal) (correlationId : Option String)
    (genId timestamp : String) : ErrResponse :=
  let requestId := jsOrStr correlationId genId
  { message := message
    code := match code with
            | some c => if c = "" then none else some c
            | none => none
    details := if jsTruthy details then some details else none
    requestId := requestId
    correlationId := requestId
    timestamp := timestamp
    statusCode := statusCode }

/-- An `Option String` field spread into an object literal
(`{ resource: error.resource, id: error.id }`). -/
def optStrToJVal : Option String → JVal
  | some s => JVal.str s
  | none => JVal.undef

/-- `ErrorHandler.handleError(error, context = {})`.  Returns `none` when the
source returns `undefined` (the `SyntaxError`-without-"JSON" fall-through). -/
def handleError (devMode : Bool) (genId timestamp : String) (ctx : ErrCtx)
    (e : JSError) : Option ErrResponse :=
  let correlationId := jsOrStr ctx.correlationId (jsOrStr ctx.awsRequestId genId)
  match e.name with
  | "ValidationError" =>
      some (createErrorResponse e.message 400 (some "VALIDATION_ERROR") e.errors
        (some correlationId) genId timestamp)
  | "NotFoundError" =>
      some (createErrorResponse
        (jsOrStr e.resource "Resource" ++ " with ID \x27" ++
          jsOrStr e.id "unknown" ++ "\x27 not found")
        404 (some "NOT_FOUND")
        (JVal.obj [("resource", optStrToJVal e.resource), ("id", optStrToJVal e.id)])
        (some correlationId) genId timestamp)
  | "ConflictError" =>
      some (createErrorResponse e.message 409 (some "CONFLICT") e.details
        (some correlationId) genId timestamp)
  | "UnauthorizedError" =>
      some (createErrorResponse (jsOrStr (some e.message) "Unauthorized") 401
        (some "UNAUTHORIZED") JVal.null (some correlationId) genId timestamp)
  | "ForbiddenError" =>
      some (createErrorResponse (jsOrStr (some e.message) "Forbidden") 403
        (some "FORBIDDEN") JVal.null (some correlationId) genId timestamp)
  | "BusinessLogicError" =>
      some (createErrorResponse e.message 400 (some "BUSINESS_LOGIC_ERROR")
        e.details (some correlationId) genId timestamp)
  | "ConditionalCheckFailedException" =>
      some (createErrorResponse "Resource has been modified by another request" 409
        (some "CONFLICT") JVal.null (some correlationId) genId timestamp)
  | "ResourceNotFoundException" =>
      some (createErrorResponse "Resource not found" 404 (some "NOT_FOUND")
        JVal.null (some correlationId) genId timestamp)
  | "ProvisionedThroughputExceededException" =>
      some (createErrorResponse
        "Service temporarily unavailable. Please try again later." 503
        (some "SERVICE_UNAVAILABLE") JVal.null (some correlationId) genId timestamp)
  | "ThrottlingException" =>
      some (createErrorResponse
        "Service temporarily unavailable. Please try again later." 503
        (some "SERVICE_UNAVAILABLE") JVal.null (some correlationId) genId timestamp)
  | "ItemCollectionSizeLimitExceededException" =>
      some (createErrorResponse "Request payload too large" 413
        (some "REQUEST_TOO_LARGE") JVal.null (some correlationId) genId timestamp)
  | "ValidationException" =>
      some (createErrorResponse "Invalid request parameters" 400
        (some "VALIDATION_ERROR") (JVal.obj [("dynamoDbError", JVal.str e.message)])
        (some correlationId) genId timestamp)
  | "AccessDeniedException" =>
      some (createErrorResponse "Access denied to requested resource" 403
        (some "FORBIDDEN") JVal.null (some correlationId) genId timestamp)
  | "InternalServerError" =>
      some (createErrorResponse "Service temporarily unavailable" 503
        (some "SERVICE_UNAVAILABLE") JVal.null (some correlationId) genId timestamp)
  | "ServiceUnavailableException" =>
      some (createErrorResponse "Service temporarily unavailable" 503
        (some "SERVICE_UNAVAILABLE") JVal.null (some correlationId) genId timestamp)
  | "SyntaxError" =>
      if jsIncludes e.message "JSON" then
        some (createErrorResponse "Invalid JSON in request body" 400
          (some "VALIDATION_ERROR") (JVal.obj [("parseError", JVal.str e.message)])
          (some correlationId) genId timestamp)
      else
        none
  | "TimeoutError" =>
      some (createErrorResponse "Request timeout" 408 (some "REQUEST_TIMEOUT")
        JVal.null (some correlationId) genId timestamp)
  | _ =>
      some (createErrorResponse "Internal server error" 500
        (some "INTERNAL_SERVER_ERROR")
        (if devMode then
          JVal.obj [("stack", JVal.str e.stack),
            ("errorType", JVal.str e.constructorName), ("errorCode", e.codeProp)]
         else JVal.undef)
        (some correlationId) genId timestamp)

/-- The `(statusCode, code)` pair of a `handleError` result. -/
def errStatusCode (r : Option ErrResponse) : Option (Nat × Option String) :=
  r.map (fun x => (x.statusCode, x.code))

/-- C5: `handleError` maps every classified error kind to exactly the status
code and stable code of the taxonomy table, for arbitrary message, payloads,
context and host inputs. -/
theorem handleError_taxonomy (devMode : Bool) (genId timestamp : String)
    (ctx : ErrCtx) (e : JSError) :
    (e.name = "ValidationError" →
        errStatusCode (handleError devMode genId timestamp ctx e) =
          some (400, some "VALIDATION_ERROR")) ∧
      (e.name = "NotFoundError" →
        errStatusCode (handleError devMode genId timestamp ctx e) =
          some (404, some "NOT_FOUND")) ∧
      (e.name = "ConflictError" →
        errStatusCode (handleError devMode genId timestamp ctx e) =
          some (409, some "CONFLICT")) ∧
      (e.name = "UnauthorizedError" →
        errStatusCode (handleError devMode genId timestamp ctx e) =
          some (401, some "UNAUTHORIZED")) ∧
      (e.name = "ForbiddenError" →
        errStatusCode (handleError devMode genId timestamp ctx e) =
          some (403, some "FORBIDDEN")) ∧
      (e.name = "BusinessLogicError" →
        errStatusCode (handleError devMode genId timestamp ctx e) =
          some (400, some "BUSINESS_LOGIC_ERROR")) ∧
      (e.name = "ConditionalCheckFailedException" →
        errStatusCode (handleError devMode genId timestamp ctx e) =
          some (409, some "CONFLICT")) ∧
      (e.name = "ResourceNotFoundException" →
        errStatusCode (handleError devMode genId timestamp ctx e) =
          some (404, some "NOT_FOUND")) ∧
      (e.name = "ProvisionedThroughputExceededException" →
        errStatusCode (handleError devMode genId timestamp ctx e) =
          some (503, some "SERVICE_UNAVAILABLE")) ∧
      (e.name = "ThrottlingException" →
        errStatusCode (handleError devMode genId timestamp ctx e) =
          some (503, some "SERVICE_UNAVAILABLE")) ∧
      (e.name = "ItemCollectionSizeLimitExceededException" →
        errStatusCode (handleError devMode genId timestamp ctx e) =
          some (413, some "REQUEST_TOO_LARGE")) ∧
      (e.name = "ValidationException" →
        errStatusCode (handleError devMode genId timestamp ctx e) =
          some (400, some "VALIDATION_ERROR")) ∧
      (e.name = "AccessDeniedException" →
        errStatusCode (handleError devMode genId timestamp ctx e) =
          some (403, some "FORBIDDEN")) ∧
      (e.name = "InternalServerError" →
        errStatusCode (handleError devMode genId timestamp ctx e) =
          some (503, some "SERVICE_UNAVAILABLE")) ∧
      (e.name = "ServiceUnavailableException" →
        errStatusCode (handleError devMode genId timestamp ctx e) =
          some (503, some "SERVICE_UNAVAILABLE")) ∧
      (e.name = "SyntaxError" → jsIncludes e.message "JSON" = true →
        errStatusCode (handleError devMode genId timestamp ctx e) =
          some (400, some "VALIDATION_ERROR")) ∧
      (e.name = "TimeoutError" →
        errStatusCode (handleError devMode genId timestamp ctx e) =
          some (408, some "REQUEST_TIMEOUT")) := by
  obtain ⟨n, msg, res, id, errs, dets, stk, cn, cp⟩ := e
  refine ⟨?_, ?_, ?_, ?_, ?_, ?_, ?_, ?_, ?_, ?_, ?_, ?_, ?_, ?_, ?_, ?_, ?_⟩
  all_goals intro h
  all_goals subst h
  all_goals try rfl
  intro hJ
  simp [handleError, errStatusCode, createErrorResponse, hJ]

/-- Witness for C5: the `SyntaxError` row at a concrete parse error whose
message contains "JSON". -/
theorem handleError_taxonomy_witness :
    errStatusCode (handleError false "gen" "ts" ⟨none, none⟩
        ⟨"SyntaxError", "Unexpected end of JSON input", none, none, JVal.undef,
          JVal.undef, "", "", JVal.undef⟩) = some (400, some "VALIDATION_ERROR") :=
  (handleError_taxonomy false "gen" "ts" ⟨none, none⟩
      ⟨"SyntaxError", "Unexpected end of JSON input", none, none, JVal.undef,
        JVal.undef, "", "",
        JVal.undef⟩).2.2.2.2.2.2.2.2.2.2.2.2.2.2.2.1 rfl (by decide)

/-- C2 (failing input): for an error named `SyntaxError` whose message does
not contain "JSON", the `break` leaves the switch with no statement after
it, so `handleError` returns `undefined` (`none`) — not an error record, and
not the unclassified 500 / INTERNAL_SERVER_ERROR mapping the claim (and the
mapper's own documentation) promise. -/
theorem handleError_syntaxError_fall_through :
    handleError false "gen" "ts" ⟨none, none⟩
      ⟨"SyntaxError", "Unexpected token u in position 0", none, none, JVal.undef,
        JVal.undef, "", "", JVal.undef⟩ = none := rfl

end TaleOfDdh
